import Mathlib

/-!
Shallow embedding of `flash-mcu.py`, an openocd/esptool wrapper CLI, together
with proofs about its behaviour.

Modelling choices:

* Python strings are Lean `String`s; `str.startswith` / `str.endswith` /
  `str.lower` are modelled on the underlying character lists
  (`pyStartswith`, `pyEndswith`, `pyLower`).  Python slicing `s[:-1]` is
  `List.dropLast` on the character list.
* Filesystem paths are strings; `pathlib.Path` joining is string
  concatenation with `"/"`, and `Path.expanduser` resolves the leading `~`
  against a home directory carried in the environment (`Env.home`).
* The outside world is a read-only record `Env`: which paths exist
  (`Path.exists`), what `which` prints on success, and the exit status every
  spawned command would return.
* Observable effects are a trace `Effects`: the list of lines printed to
  stdout and the list of argument vectors handed to `subprocess.run`.
* A Python function's outcome is `Res α`: normal return, `sys.exit(c)`
  (`sys.exit()` with no argument exits with status 0), a raised
  `NotFoundException`, or a raised `subprocess.CalledProcessError` carrying
  the child's nonzero exit status (`check=True` semantics).
* `shlex.join` is modelled as joining the arguments with single spaces;
  no property proved here depends on shell quoting.
* The CPython interpreter turns an uncaught exception into process exit
  status 1; `exitStatus` applies that rule to the final `Res`.
-/

namespace FlashMcu

/-- Python `s.startswith(pre)`, as a prefix test on the character list. -/
def pyStartswith (s pre : String) : Bool := pre.data.isPrefixOf s.data

/-- Python `s.endswith(suf)`, as a suffix test on the character list. -/
def pyEndswith (s suf : String) : Bool := suf.data.isSuffixOf s.data

/-- Python `s.lower()` (ASCII letters, which is all the program feeds it). -/
def pyLower (s : String) : String := ⟨s.data.map Char.toLower⟩

/-- Python truthiness on an `Optional[str]`: `if x: v = x else: v = d`.
`None` and the empty string are falsy. -/
def truthy_or (x : Option String) (d : String) : String :=
  match x with
  | some s => if s = "" then d else s
  | none => d

/-- Command-line arguments of the program (the `Args` dataclass,
source lines 29-36). -/
structure Args where
  mcu : String
  firmware_path : String
  tool : Option String
  port : Option String
  start : Option String
  dryrun : Bool
deriving DecidableEq, Repr

/-- The read-only outside world the program consults. -/
structure Env where
  home : String
  pathExists : String → Bool
  whichOut : String → Option String
  runExit : List String → Nat

/-- Outcome of running a piece of the program. -/
inductive Res (α : Type) where
  | ok : α → Res α
  | exited : Nat → Res α
  | notFound : String → Res α
  | childFailed : Nat → Res α
deriving DecidableEq, Repr

/-- Observable effect trace: printed lines and spawned subprocess argument
vectors, in order. -/
structure Effects where
  prints : List String
  spawns : List (List String)
deriving DecidableEq, Repr

def Effects.empty : Effects := ⟨[], []⟩

def addPrint (eff : Effects) (s : String) : Effects :=
  { eff with prints := eff.prints ++ [s] }

def addSpawn (eff : Effects) (c : List String) : Effects :=
  { eff with spawns := eff.spawns ++ [c] }

/-- Python `subprocess.run(cmd, check=True)`: spawn the command; a nonzero
child exit status raises `CalledProcessError`. -/
def runChecked (env : Env) (cmd : List String) (eff : Effects) :
    Res Unit × Effects :=
  let eff := addSpawn eff cmd
  if env.runExit cmd = 0 then (.ok (), eff) else (.childFailed (env.runExit cmd), eff)

/-- Python `shlex.join` (source line 19), up to shell quoting. -/
def shlexJoin (cmd : List String) : String := String.intercalate " " cmd

/-- The `which` helper (source lines 22-26): spawns `which exe` (even this
probe is a subprocess), returns its stdout on success, raises
`NotFoundException` otherwise. -/
def which (env : Env) (exe : String) (eff : Effects) : Res String × Effects :=
  let eff := addSpawn eff ["which", exe]
  match env.whichOut exe with
  | some out => (.ok out, eff)
  | none => (.notFound ("cannot found " ++ exe), eff)

/-- The directory probed by `get_platformio_package_path` (source line 40):
`Path("~", ".platformiopackages", package).expanduser()`.  Note the literal
component `".platformiopackages"` — there is no `/` between `.platformio`
and `packages` in the source. -/
def platformio_package_dir (env : Env) (package : String) : String :=
  env.home ++ "/.platformiopackages/" ++ package

/-- Source lines 39-43: return the package directory if it exists, else
raise `NotFoundException`. -/
def get_platformio_package_path (env : Env) (package : String) :
    Except String String :=
  let package_path := platformio_package_dir env package
  if env.pathExists package_path then .ok package_path
  else .error ("platform package " ++ package ++ " not found")

/-- Source lines 46-53: `bin/<executable>` inside the package directory. -/
def get_platformio_package_bin_path (env : Env) (package executable : String) :
    Except String String :=
  match get_platformio_package_path env package with
  | .error e => .error e
  | .ok package_path =>
    let bin_path := package_path ++ "/bin/" ++ executable
    if env.pathExists bin_path then .ok bin_path
    else .error ("PlatformIO package " ++ package ++ " does not have " ++ executable)

/-- Source lines 56-66.  The system branch returns the pair
(executable, data root); the fallback branch returns, in this order,
`get_platformio_package_path` then `get_platformio_package_bin_path` —
i.e. (package root, bin/openocd), exactly as in the source. -/
def detect_openocd_path (env : Env) : Except String (String × String) :=
  if env.pathExists "/usr/local/bin/openocd" && env.pathExists "/usr/local/share/openocd" then
    .ok ("/usr/local/bin/openocd", "/usr/local/share/openocd")
  else
    match get_platformio_package_path env "tool-openocd",
          get_platformio_package_bin_path env "tool-openocd" "openocd" with
    | .ok a, .ok b => .ok (a, b)
    | .error e, _ => .error e
    | .ok _, .error e => .error e

/-- The hand-curated family list (source lines 85-99), in source order. -/
def mcu_series : List String :=
  ["stm8s003", "stm8s103", "stm8s105",
   "stm32c0x", "stm32f0x", "stm32f1x", "stm32f2x", "stm32f3x", "stm32f4x",
   "stm32f7x", "stm32g0x", "stm32g4x", "stm32h7x"]

/-- Source lines 102-105: for an entry ending in `"x"` the prefix to match is
the entry with its last character dropped (`series[:-1]`), else the entry. -/
def series_start (series : String) : String :=
  if pyEndswith series "x" then ⟨series.data.dropLast⟩ else series

/-- The family-detection loop (source lines 100-108): `detected_mcu_series`
starts as `""` and the loop breaks at the first entry whose
`series_start` is a prefix of the (lowercased) MCU name. -/
def detect_loop (mcu : String) : List String → String
  | [] => ""
  | series :: rest =>
    if pyStartswith mcu (series_start series) then series else detect_loop mcu rest

def detect_mcu_series (mcu : String) : String := detect_loop mcu mcu_series

/-- The openocd argument vector built for a `.bin` firmware
(source lines 116-124). -/
def stm32_bin_cmd (openocd_bin openocd_root tool series firmware start : String) :
    List String :=
  [openocd_bin,
   "-f", openocd_root ++ "/scripts/interface/" ++ tool ++ ".cfg",
   "-f", openocd_root ++ "/scripts/target/" ++ series ++ ".cfg",
   "-c", "program " ++ firmware ++ " exit " ++ start]

/-- The openocd argument vector built for a `.elf` or `.hex` firmware
(source lines 131-139). -/
def stm32_elfhex_cmd (openocd_bin openocd_root tool series firmware : String) :
    List String :=
  [openocd_bin,
   "-f", openocd_root ++ "/scripts/interface/" ++ tool ++ ".cfg",
   "-f", openocd_root ++ "/scripts/target/" ++ series ++ ".cfg",
   "-c", "program " ++ firmware ++ " verify reset exit"]

/-- `flash_stm32` (source lines 69-146). -/
def flash_stm32 (env : Env) (args : Args) (eff : Effects) : Res Unit × Effects :=
  match detect_openocd_path env with
  | .error e => (.notFound e, eff)
  | .ok (openocd_bin, openocd_root) =>
    let mcu := pyLower args.mcu
    let start := truthy_or args.start "0x8000000"
    let tool := truthy_or args.tool "cmsis-dap"
    let eff := addPrint eff ("tool using " ++ tool)
    let detected_mcu_series := detect_mcu_series mcu
    if detected_mcu_series = "" then
      (.exited 0, addPrint eff ("cannot support mcu " ++ args.mcu))
    else
      let eff := addPrint eff detected_mcu_series
      if pyEndswith args.firmware_path ".bin" then
        let cmd := stm32_bin_cmd openocd_bin openocd_root tool detected_mcu_series
          args.firmware_path start
        let eff := addPrint eff (shlexJoin cmd)
        if args.dryrun then (.ok (), eff) else runChecked env cmd eff
      else if pyEndswith args.firmware_path ".elf" || pyEndswith args.firmware_path ".hex" then
        let cmd := stm32_elfhex_cmd openocd_bin openocd_root tool detected_mcu_series
          args.firmware_path
        let eff := addPrint eff (shlexJoin cmd)
        if args.dryrun then (.ok (), eff) else runChecked env cmd eff
      else
        (.exited 1, addPrint eff ("unknown firmware " ++ args.firmware_path))

/-- `detect_esptool_path` (source lines 149-157): prefer the PlatformIO
bundled interpreter + script pair (note: probed under
`~/.platformio/packages/`, with a `/`), else `which esptool.py`. -/
def detect_esptool_path (env : Env) (eff : Effects) : Res (List String) × Effects :=
  if env.pathExists (env.home ++ "/.platformio/packages/tool-esptoolpy") then
    (.ok [env.home ++ "/.platformio/penv/bin/python",
          env.home ++ "/.platformio/packages/tool-esptoolpy/esptool.py"], eff)
  else
    match which env "esptool.py" eff with
    | (.ok tool_path, eff) => (.ok [tool_path], eff)
    | (.exited c, eff) => (.exited c, eff)
    | (.notFound e, eff) => (.notFound e, eff)
    | (.childFailed c, eff) => (.childFailed c, eff)

/-- The esptool argument vector (source lines 167-175); `--chip` uses the
MCU name exactly as given, not lowercased. -/
def esp32_cmd (esptool_cmd : List String) (mcu port firmware : String) :
    List String :=
  esptool_cmd ++
    ["--chip=" ++ mcu, "--port=" ++ port, "write_flash", "--flash_size=detect",
     "0", firmware]

/-- `flash_esp32` (source lines 160-181). -/
def flash_esp32 (env : Env) (args : Args) (eff : Effects) : Res Unit × Effects :=
  match args.port with
  | none => (.exited 1, addPrint eff "need port: --port /dev/ttyACM0")
  | some port =>
    if !env.pathExists port then
      (.notFound ("port " ++ port ++ " does not found"), eff)
    else
      match detect_esptool_path env eff with
      | (.ok esptool_cmd, eff) =>
        let cmd := esp32_cmd esptool_cmd args.mcu port args.firmware_path
        let eff := addPrint eff (shlexJoin cmd)
        if args.dryrun then (.ok (), eff) else runChecked env cmd eff
      | (.exited c, eff) => (.exited c, eff)
      | (.notFound e, eff) => (.notFound e, eff)
      | (.childFailed c, eff) => (.childFailed c, eff)

/-- `flash_mcu` (source lines 184-194): top-level dispatch on the lowercased
MCU name. -/
def flash_mcu (env : Env) (args : Args) (eff : Effects) : Res Unit × Effects :=
  let mcu := pyLower args.mcu
  if pyStartswith mcu "stm32" then flash_stm32 env args eff
  else if pyStartswith mcu "esp32" then flash_esp32 env args eff
  else (.exited 1, addPrint eff ("mcu " ++ mcu ++ " is not supported"))

/-- `main` (source lines 223-234): firmware-existence gate, then dispatch,
catching only `NotFoundException` (printed, then `sys.exit(1)`). -/
def main (env : Env) (args : Args) (eff : Effects) : Res Unit × Effects :=
  if !env.pathExists args.firmware_path then
    (.exited 1, addPrint eff ("firmware " ++ args.firmware_path ++ " does not exist"))
  else
    match flash_mcu env args eff with
    | (.notFound e, eff) => (.exited 1, addPrint eff e)
    | r => r

/-- Process exit status of a finished run: `sys.exit(c)` exits with `c`, a
normal return exits 0, and the CPython interpreter maps any uncaught
exception (here `CalledProcessError`; `NotFoundException` never escapes
`main`) to exit status 1. -/
def exitStatus : Res Unit → Nat
  | .ok _ => 0
  | .exited c => c
  | .notFound _ => 1
  | .childFailed _ => 1

/-- A whole program run from an empty effect trace. -/
def runMainRes (env : Env) (args : Args) : Res Unit × Effects :=
  main env args Effects.empty

/-- Final process exit status and effect trace of a run. -/
def runMain (env : Env) (args : Args) : Nat × Effects :=
  (exitStatus (runMainRes env args).1, (runMainRes env args).2)

/-! ### Generic facts about the prefix test and the family-detection loop -/

theorem pyStartswith_iff {s pre : String} :
    pyStartswith s pre = true ↔ pre.data <+: s.data := by
  simp [pyStartswith]

/-- If `m` starts with `p`, and `p` and `q` are not prefix-comparable, then
`m` does not start with `q` (two prefixes of one string are comparable). -/
theorem pyStartswith_false_of_incomp {m p : String} (q : String)
    (hp : pyStartswith m p = true)
    (h1 : p.data.isPrefixOf q.data = false)
    (h2 : q.data.isPrefixOf p.data = false) :
    pyStartswith m q = false := by
  cases hq : pyStartswith m q with
  | false => rfl
  | true =>
    have hpm := pyStartswith_iff.mp hp
    have hqm := pyStartswith_iff.mp hq
    rcases List.prefix_or_prefix_of_prefix hpm hqm with h | h
    · have := List.isPrefixOf_iff_prefix.mpr h
      rw [h1] at this
      exact Bool.noConfusion this
    · have := List.isPrefixOf_iff_prefix.mpr h
      rw [h2] at this
      exact Bool.noConfusion this

/-- The loop result is either the initial `""` or an element of the list. -/
theorem detect_loop_mem (m : String) (l : List String) :
    detect_loop m l = "" ∨ detect_loop m l ∈ l := by
  induction l with
  | nil => exact Or.inl rfl
  | cons a t ih =>
    simp only [detect_loop]
    by_cases h : pyStartswith m (series_start a) = true
    · simp [h]
    · simp only [Bool.not_eq_true] at h
      simp only [h, Bool.false_eq_true, if_false]
      rcases ih with h' | h'
      · exact Or.inl h'
      · exact Or.inr (List.mem_cons_of_mem a h')

/-- When the stripped prefixes in the list are pairwise not
prefix-comparable, the loop returns exactly the matching entry. -/
theorem detect_loop_first (m : String) (l : List String) (s : String)
    (hmem : s ∈ l) (hmatch : pyStartswith m (series_start s) = true)
    (hpair : l.Pairwise (fun a b =>
      (series_start a).data.isPrefixOf (series_start b).data = false ∧
      (series_start b).data.isPrefixOf (series_start a).data = false)) :
    detect_loop m l = s := by
  induction l with
  | nil => simp at hmem
  | cons a t ih =>
    simp only [detect_loop]
    rcases List.mem_cons.mp hmem with rfl | hmem'
    · simp [hmatch]
    · rw [List.pairwise_cons] at hpair
      obtain ⟨h1, h2⟩ := hpair.1 s hmem'
      have hfalse : pyStartswith m (series_start a) = false :=
        pyStartswith_false_of_incomp (series_start a) hmatch h2 h1
      simp only [hfalse, Bool.false_eq_true, if_false]
      exact ih hmem' hpair.2

/-- The stripped prefixes of the thirteen `mcu_series` entries are pairwise
not prefix-comparable. -/
theorem mcu_series_pairwise :
    mcu_series.Pairwise (fun a b =>
      (series_start a).data.isPrefixOf (series_start b).data = false ∧
      (series_start b).data.isPrefixOf (series_start a).data = false) := by
  decide

/-- C2: the family classifier, applied to the lowercased MCU name, iterates
`mcu_series` in its fixed order, matching each entry by its stripped prefix
(`series_start`), and for every MCU name (in any letter case) beginning with
a known family's stripped prefix it selects exactly that family — the
earliest matching entry wins (here the match is in fact unique, since no two
stripped prefixes are prefix-comparable). -/
theorem C2_classifier_exact (name s : String)
    (hmem : s ∈ mcu_series)
    (hmatch : pyStartswith (pyLower name) (series_start s) = true) :
    detect_mcu_series (pyLower name) = s :=
  detect_loop_first (pyLower name) mcu_series s hmem hmatch mcu_series_pairwise

/-- Witness for C2 at the concrete input `"STM32F103C8T6"`. -/
theorem C2_classifier_exact_witness :
    "stm32f1x" ∈ mcu_series ∧
    pyStartswith (pyLower "STM32F103C8T6") (series_start "stm32f1x") = true ∧
    detect_mcu_series (pyLower "STM32F103C8T6") = "stm32f1x" :=
  ⟨by decide, by decide, C2_classifier_exact "STM32F103C8T6" "stm32f1x" (by decide) (by decide)⟩

/-- C10: the family classifier never selects an `stm8s` family for any name
that reaches it.  `flash_mcu` invokes `flash_stm32` (the classifier's only
call site) only when the lowercased MCU name starts with `"stm32"`, and no
such name starts with an `stm8s` prefix, so the three `stm8s` entries of
`mcu_series` are unreachable. -/
theorem C10_stm8s_unreachable (name : String)
    (h : pyStartswith (pyLower name) "stm32" = true) :
    detect_mcu_series (pyLower name) ∉ (["stm8s003", "stm8s103", "stm8s105"] : List String) := by
  have h1 : pyStartswith (pyLower name) (series_start "stm8s003") = false :=
    pyStartswith_false_of_incomp _ h (by decide) (by decide)
  have h2 : pyStartswith (pyLower name) (series_start "stm8s103") = false :=
    pyStartswith_false_of_incomp _ h (by decide) (by decide)
  have h3 : pyStartswith (pyLower name) (series_start "stm8s105") = false :=
    pyStartswith_false_of_incomp _ h (by decide) (by decide)
  have hrest : detect_mcu_series (pyLower name) =
      detect_loop (pyLower name)
        ["stm32c0x", "stm32f0x", "stm32f1x", "stm32f2x", "stm32f3x", "stm32f4x",
         "stm32f7x", "stm32g0x", "stm32g4x", "stm32h7x"] := by
    simp only [detect_mcu_series, mcu_series, detect_loop, h1, h2, h3,
      Bool.false_eq_true, if_false]
  rw [hrest]
  rcases detect_loop_mem (pyLower name)
      ["stm32c0x", "stm32f0x", "stm32f1x", "stm32f2x", "stm32f3x", "stm32f4x",
       "stm32f7x", "stm32g0x", "stm32g4x", "stm32h7x"] with he | hm
  · rw [he]; decide
  · simp only [List.mem_cons, List.not_mem_nil, or_false] at hm
    rcases hm with h' | h' | h' | h' | h' | h' | h' | h' | h' | h' <;>
      rw [h'] <;> decide

/-- Witness for C10 at the concrete input `"stm32f103"`. -/
theorem C10_stm8s_unreachable_witness :
    pyStartswith (pyLower "stm32f103") "stm32" = true ∧
    detect_mcu_series (pyLower "stm32f103") ∉ (["stm8s003", "stm8s103", "stm8s105"] : List String) :=
  ⟨by decide, C10_stm8s_unreachable "stm32f103" (by decide)⟩

/-! ### Effect-trace bookkeeping -/

@[simp] theorem addPrint_prints (eff : Effects) (s : String) :
    (addPrint eff s).prints = eff.prints ++ [s] := rfl

@[simp] theorem addPrint_spawns (eff : Effects) (s : String) :
    (addPrint eff s).spawns = eff.spawns := rfl

@[simp] theorem addSpawn_prints (eff : Effects) (c : List String) :
    (addSpawn eff c).prints = eff.prints := rfl

@[simp] theorem addSpawn_spawns (eff : Effects) (c : List String) :
    (addSpawn eff c).spawns = eff.spawns ++ [c] := rfl

@[simp] theorem runChecked_snd (env : Env) (cmd : List String) (eff : Effects) :
    (runChecked env cmd eff).2 = addSpawn eff cmd := by
  unfold runChecked
  split <;> rfl

/-! ### C7: nonexistent firmware path -/

/-- C7: if the firmware path does not exist, the program prints exactly the
one message and exits with status 1, before dispatch or toolchain
resolution; no subprocess is spawned. -/
theorem C7_firmware_missing (env : Env) (args : Args)
    (h : env.pathExists args.firmware_path = false) :
    runMain env args =
      (1, ⟨["firmware " ++ args.firmware_path ++ " does not exist"], []⟩) := by
  simp [runMain, runMainRes, main, h, Effects.empty, addPrint, exitStatus]

/-- Witness for C7 at a concrete input. -/
theorem C7_firmware_missing_witness :
    (Env.mk "/h" (fun _ => false) (fun _ => none) (fun _ => 0)).pathExists "missing.bin" = false ∧
    runMain (Env.mk "/h" (fun _ => false) (fun _ => none) (fun _ => 0))
        (Args.mk "stm32f103" "missing.bin" none none none false) =
      (1, ⟨["firmware missing.bin does not exist"], []⟩) :=
  ⟨rfl, C7_firmware_missing _ _ rfl⟩

/-! ### C8: ESP32 port errors -/

/-- C8: on the ESP32 path (firmware exists, lowercased MCU name starts with
`"esp32"`), a missing `--port` prints only the ask-for-port message and exits
with status 1, and a `--port` naming a nonexistent filesystem node ends with
a `NotFound` message and exit status 1; in both cases no subprocess is
spawned and no command line is printed. -/
theorem C8_esp32_port_errors (env : Env) (args : Args)
    (hfw : env.pathExists args.firmware_path = true)
    (hesp : pyStartswith (pyLower args.mcu) "esp32" = true) :
    (args.port = none →
      runMain env args = (1, ⟨["need port: --port /dev/ttyACM0"], []⟩)) ∧
    (∀ p, args.port = some p → env.pathExists p = false →
      runMain env args = (1, ⟨["port " ++ p ++ " does not found"], []⟩)) := by
  have hstm : pyStartswith (pyLower args.mcu) "stm32" = false :=
    pyStartswith_false_of_incomp _ hesp (by decide) (by decide)
  constructor
  · intro hport
    simp [runMain, runMainRes, main, flash_mcu, flash_esp32, hfw, hesp, hstm, hport,
      Effects.empty, addPrint, exitStatus]
  · intro p hport hpe
    simp [runMain, runMainRes, main, flash_mcu, flash_esp32, hfw, hesp, hstm, hport, hpe,
      Effects.empty, addPrint, exitStatus]

/-- Witness for C8 at a concrete input (ESP32 invocation without `--port`). -/
theorem C8_esp32_port_errors_witness :
    (Env.mk "/h" (fun p => p == "app.bin") (fun _ => none) (fun _ => 0)).pathExists
        (Args.mk "esp32" "app.bin" none none none false).firmware_path = true ∧
    pyStartswith (pyLower (Args.mk "esp32" "app.bin" none none none false).mcu) "esp32" = true ∧
    runMain (Env.mk "/h" (fun p => p == "app.bin") (fun _ => none) (fun _ => 0))
        (Args.mk "esp32" "app.bin" none none none false) =
      (1, ⟨["need port: --port /dev/ttyACM0"], []⟩) :=
  ⟨by decide, by decide,
   (C8_esp32_port_errors _ _ (by decide) (by decide)).1 rfl⟩

/-! ### C3: unsupported MCU names -/

/-- C3 (amended): an MCU name matching no supported family always produces a
not-supported message, terminates the program without spawning a subprocess,
and the exit status is 1 when the name fails top-level dispatch but 0 (a
clean `sys.exit()`) when the name passes dispatch into the STM32 path and
matches no entry of the family list. -/
theorem C3_unsupported_mcu (env : Env) (args : Args) (bin root : String)
    (hfw : env.pathExists args.firmware_path = true)
    (hloc : detect_openocd_path env = .ok (bin, root))
    (h : (pyStartswith (pyLower args.mcu) "stm32" = false ∧
          pyStartswith (pyLower args.mcu) "esp32" = false) ∨
         (pyStartswith (pyLower args.mcu) "stm32" = true ∧
          detect_mcu_series (pyLower args.mcu) = "")) :
    (pyStartswith (pyLower args.mcu) "stm32" = false →
      runMain env args =
        (1, ⟨["mcu " ++ pyLower args.mcu ++ " is not supported"], []⟩)) ∧
    (pyStartswith (pyLower args.mcu) "stm32" = true →
      runMain env args =
        (0, ⟨["tool using " ++ truthy_or args.tool "cmsis-dap",
              "cannot support mcu " ++ args.mcu], []⟩)) := by
  constructor
  · intro hstm
    rcases h with ⟨_, hesp⟩ | ⟨hstm', _⟩
    · simp [runMain, runMainRes, main, flash_mcu, hfw, hstm, hesp, Effects.empty, addPrint, exitStatus]
    · rw [hstm] at hstm'
      exact Bool.noConfusion hstm'
  · intro hstm
    rcases h with ⟨hstm', _⟩ | ⟨_, hser⟩
    · rw [hstm] at hstm'
      exact Bool.noConfusion hstm'
    · simp [runMain, runMainRes, main, flash_mcu, flash_stm32, hfw, hstm, hloc, hser,
        Effects.empty, addPrint, exitStatus]

/-- The environment used to refute C3 as stated: openocd present at the
system location, firmware `a.bin` present. -/
def envC3 : Env :=
  ⟨"/h",
   fun p => p == "/usr/local/bin/openocd" || p == "/usr/local/share/openocd" || p == "a.bin",
   fun _ => none, fun _ => 0⟩

def argsC3 : Args := ⟨"stm32zzz", "a.bin", none, none, none, false⟩

/-- Counterexample to C3 as stated: the MCU name `"stm32zzz"` passes
top-level dispatch but matches no family entry; the program prints the
not-supported message and spawns nothing, but terminates with exit status 0
(bare `sys.exit()`), not 1. -/
theorem C3_counterexample :
    (runMain envC3 argsC3).1 = 0 ∧
    (runMain envC3 argsC3).2.spawns = [] ∧
    (runMain envC3 argsC3).2.prints.getLast? = some "cannot support mcu stm32zzz" ∧
    (0 : Nat) ≠ 1 :=
  ⟨rfl, rfl, rfl, by decide⟩

/-- Witness for C3's amended theorem at the concrete input `"stm32zzz"`. -/
theorem C3_unsupported_mcu_witness :
    envC3.pathExists argsC3.firmware_path = true ∧
    detect_openocd_path envC3 = .ok ("/usr/local/bin/openocd", "/usr/local/share/openocd") ∧
    detect_mcu_series (pyLower argsC3.mcu) = "" ∧
    runMain envC3 argsC3 =
      (0, ⟨["tool using cmsis-dap", "cannot support mcu stm32zzz"], []⟩) :=
  ⟨by decide, rfl, by decide,
   (C3_unsupported_mcu envC3 argsC3 _ _ (by decide) rfl
      (Or.inr ⟨by decide, by decide⟩)).2 (by decide)⟩

/-! ### C1: the STM32 command builder -/

@[simp] theorem stm32_bin_cmd_getLast (a b c d e f : String) :
    (stm32_bin_cmd a b c d e f).getLast? = some ("program " ++ e ++ " exit " ++ f) := rfl

@[simp] theorem stm32_elfhex_cmd_getLast (a b c d e : String) :
    (stm32_elfhex_cmd a b c d e).getLast? = some ("program " ++ e ++ " verify reset exit") := rfl

/-- C1 (amended): for every invocation that reaches the STM32 command
builder (openocd located, family detected), a `.bin` firmware yields the
on-target command string `program <firmware_path> exit <start>` where
`<start>` is the `--start` value if given and non-empty and `"0x8000000"`
otherwise (Python truthiness: an empty `--start` falls back to the
default); a `.elf`/`.hex` firmware yields
`program <firmware_path> verify reset exit` with no explicit address; any
other extension prints an unsupported-format message and exits with status
1 without spawning a subprocess.  The built vector is printed always and
spawned exactly when not in dry-run mode. -/
theorem C1_stm32_command (env : Env) (args : Args) (eff : Effects) (bin root : String)
    (hloc : detect_openocd_path env = .ok (bin, root))
    (hser : detect_mcu_series (pyLower args.mcu) ≠ "") :
    (pyEndswith args.firmware_path ".bin" = true →
      ((flash_stm32 env args eff).2.prints.getLast? =
         some (shlexJoin (stm32_bin_cmd bin root (truthy_or args.tool "cmsis-dap")
           (detect_mcu_series (pyLower args.mcu)) args.firmware_path
           (truthy_or args.start "0x8000000"))) ∧
       (stm32_bin_cmd bin root (truthy_or args.tool "cmsis-dap")
           (detect_mcu_series (pyLower args.mcu)) args.firmware_path
           (truthy_or args.start "0x8000000")).getLast? =
         some ("program " ++ args.firmware_path ++ " exit " ++
           truthy_or args.start "0x8000000") ∧
       (args.dryrun = true → (flash_stm32 env args eff).2.spawns = eff.spawns) ∧
       (args.dryrun = false → (flash_stm32 env args eff).2.spawns =
         eff.spawns ++ [stm32_bin_cmd bin root (truthy_or args.tool "cmsis-dap")
           (detect_mcu_series (pyLower args.mcu)) args.firmware_path
           (truthy_or args.start "0x8000000")]))) ∧
    (pyEndswith args.firmware_path ".bin" = false →
     (pyEndswith args.firmware_path ".elf" = true ∨
      pyEndswith args.firmware_path ".hex" = true) →
      ((flash_stm32 env args eff).2.prints.getLast? =
         some (shlexJoin (stm32_elfhex_cmd bin root (truthy_or args.tool "cmsis-dap")
           (detect_mcu_series (pyLower args.mcu)) args.firmware_path)) ∧
       (stm32_elfhex_cmd bin root (truthy_or args.tool "cmsis-dap")
           (detect_mcu_series (pyLower args.mcu)) args.firmware_path).getLast? =
         some ("program " ++ args.firmware_path ++ " verify reset exit") ∧
       (args.dryrun = true → (flash_stm32 env args eff).2.spawns = eff.spawns) ∧
       (args.dryrun = false → (flash_stm32 env args eff).2.spawns =
         eff.spawns ++ [stm32_elfhex_cmd bin root (truthy_or args.tool "cmsis-dap")
           (detect_mcu_series (pyLower args.mcu)) args.firmware_path]))) ∧
    (pyEndswith args.firmware_path ".bin" = false →
     pyEndswith args.firmware_path ".elf" = false →
     pyEndswith args.firmware_path ".hex" = false →
      ((flash_stm32 env args eff).1 = .exited 1 ∧
       (flash_stm32 env args eff).2.spawns = eff.spawns ∧
       (flash_stm32 env args eff).2.prints.getLast? =
         some ("unknown firmware " ++ args.firmware_path))) := by
  refine ⟨?_, ?_, ?_⟩
  · intro hbin
    cases hd : args.dryrun <;>
      simp [flash_stm32, hloc, hser, hbin, hd, List.getLast?_concat]
  · intro hbin helfhex
    have h1 : (pyEndswith args.firmware_path ".elf" ||
               pyEndswith args.firmware_path ".hex") = true := by
      rcases helfhex with h | h <;> simp [h]
    cases hd : args.dryrun <;>
      simp [flash_stm32, hloc, hser, hbin, h1, hd, List.getLast?_concat]
  · intro hbin helf hhex
    simp [flash_stm32, hloc, hser, hbin, helf, hhex, List.getLast?_concat]

/-- The environment used around C1's counterexample: openocd at the system
location, firmware `a.bin` present, every child succeeding. -/
def envC1 : Env :=
  ⟨"/h",
   fun p => p == "/usr/local/bin/openocd" || p == "/usr/local/share/openocd" || p == "a.bin",
   fun _ => none, fun _ => 0⟩

/-- Arguments with `--start` given as the empty string. -/
def argsC1 : Args := ⟨"stm32f103", "a.bin", none, none, some "", false⟩

/-- Counterexample to C1 as stated: with `--start` given as the empty
string, the claim predicts the command string `"program a.bin exit "`, but
the code falls back to the default and builds
`"program a.bin exit 0x8000000"`. -/
theorem C1_counterexample :
    argsC1.start = some "" ∧
    (runMain envC1 argsC1).2.spawns =
      [["/usr/local/bin/openocd",
        "-f", "/usr/local/share/openocd/scripts/interface/cmsis-dap.cfg",
        "-f", "/usr/local/share/openocd/scripts/target/stm32f1x.cfg",
        "-c", "program a.bin exit 0x8000000"]] ∧
    "program a.bin exit 0x8000000" ≠ "program a.bin exit " :=
  ⟨rfl, rfl, by decide⟩

/-- Witness for C1's amended theorem at a concrete `.bin` invocation. -/
theorem C1_stm32_command_witness :
    detect_openocd_path envC1 = .ok ("/usr/local/bin/openocd", "/usr/local/share/openocd") ∧
    detect_mcu_series (pyLower (Args.mk "stm32f103c8t6" "app.bin" none none none true).mcu) ≠ "" ∧
    pyEndswith "app.bin" ".bin" = true ∧
    (flash_stm32 envC1 (Args.mk "stm32f103c8t6" "app.bin" none none none true)
        Effects.empty).2.prints.getLast? =
      some (shlexJoin (stm32_bin_cmd "/usr/local/bin/openocd" "/usr/local/share/openocd"
        "cmsis-dap" "stm32f1x" "app.bin" "0x8000000")) := by
  refine ⟨rfl, by decide, by decide, ?_⟩
  exact ((C1_stm32_command envC1 (Args.mk "stm32f103c8t6" "app.bin" none none none true)
    Effects.empty _ _ rfl (by decide)).1 (by decide)).1

/-! ### C5: the openocd locator's two branches -/

/-- Environment exercising the openocd fallback branch: nothing under
`/usr/local`, the per-user package cache present (at the directory the code
actually probes), firmware `a.bin` present, children succeed. -/
def envC5 : Env :=
  ⟨"/root",
   fun p => p == "/root/.platformiopackages/tool-openocd" ||
            p == "/root/.platformiopackages/tool-openocd/bin/openocd" ||
            p == "a.bin",
   fun _ => none, fun _ => 0⟩

def argsC5 : Args := ⟨"stm32f103", "a.bin", none, none, none, false⟩

/-- Evaluation of the code at C5's failing input: in the fallback branch
`detect_openocd_path` returns (package root, bin/openocd) — the reverse of
the system branch's (executable, data root) — so the built vector's first
element is the package root directory, not the openocd executable, and the
two `-f` config paths hang off `<package root>/bin/openocd/scripts/...`
instead of the toolchain root's `scripts/...`. -/
theorem C5_fallback_swapped :
    detect_openocd_path envC5 =
      .ok ("/root/.platformiopackages/tool-openocd",
           "/root/.platformiopackages/tool-openocd/bin/openocd") ∧
    (runMain envC5 argsC5).2.spawns =
      [["/root/.platformiopackages/tool-openocd",
        "-f",
        "/root/.platformiopackages/tool-openocd/bin/openocd/scripts/interface/cmsis-dap.cfg",
        "-f",
        "/root/.platformiopackages/tool-openocd/bin/openocd/scripts/target/stm32f1x.cfg",
        "-c", "program a.bin exit 0x8000000"]] ∧
    "/root/.platformiopackages/tool-openocd" ≠
      "/root/.platformiopackages/tool-openocd/bin/openocd" :=
  ⟨rfl, rfl, by decide⟩

/-! ### C9: the per-user package-cache directory convention -/

/-- Environment where the package cache exists at the conventional
`~/.platformio/packages/` location (for both openocd and esptool), but not
at the misspelled `~/.platformiopackages/` location. -/
def envC9 : Env :=
  ⟨"/root",
   fun p => p == "/root/.platformio/packages/tool-openocd" ||
            p == "/root/.platformio/packages/tool-esptoolpy",
   fun _ => none, fun _ => 0⟩

/-- Evaluation of the code at C9's failing input: the openocd locator's
fallback probes `<home>/.platformiopackages/<package>` (no `/` between
`.platformio` and `packages`), which is not the `~/.platformio/packages/`
convention the esptool locator uses, so it raises `NotFound` (naming the
package) even when the conventional directory exists. -/
theorem C9_package_dir_typo :
    platformio_package_dir envC9 "tool-openocd" =
      "/root/.platformiopackages/tool-openocd" ∧
    "/root/.platformiopackages/tool-openocd" ≠
      "/root/.platformio/packages/tool-openocd" ∧
    envC9.pathExists "/root/.platformio/packages/tool-openocd" = true ∧
    get_platformio_package_path envC9 "tool-openocd" =
      .error "platform package tool-openocd not found" ∧
    (detect_esptool_path envC9 Effects.empty).1 =
      .ok ["/root/.platformio/penv/bin/python",
           "/root/.platformio/packages/tool-esptoolpy/esptool.py"] :=
  ⟨rfl, by decide, by decide, rfl, rfl⟩

/-! ### Outcome bookkeeping for `runChecked` and the locators -/

@[simp] theorem runChecked_fst_eq_notFound_iff (env : Env) (cmd : List String)
    (eff : Effects) (e : String) :
    ((runChecked env cmd eff).1 = Res.notFound e) ↔ False := by
  unfold runChecked
  split <;> simp

@[simp] theorem runChecked_fst_eq_exited_iff (env : Env) (cmd : List String)
    (eff : Effects) (c : Nat) :
    ((runChecked env cmd eff).1 = Res.exited c) ↔ False := by
  unfold runChecked
  split <;> simp

theorem runChecked_childFailed_ne_zero (env : Env) (cmd : List String)
    (eff : Effects) (n : Nat) :
    (runChecked env cmd eff).1 = .childFailed n → n ≠ 0 := by
  unfold runChecked
  split
  · simp
  · next hne =>
    intro h2
    simp only [Res.childFailed.injEq] at h2
    rw [← h2]
    exact hne

theorem which_spec (env : Env) (exe : String) (eff : Effects) :
    (which env exe eff).2.prints = eff.prints ∧
    (which env exe eff).2.spawns = eff.spawns ++ [["which", exe]] ∧
    (∀ n, (which env exe eff).1 ≠ .childFailed n) ∧
    (∀ c, (which env exe eff).1 ≠ .exited c) := by
  unfold which
  rcases h : env.whichOut exe with _ | out <;> simp [h]

theorem detect_esptool_path_spec (env : Env) (eff : Effects) :
    (detect_esptool_path env eff).2.prints = eff.prints ∧
    ((detect_esptool_path env eff).2.spawns = eff.spawns ∨
     (detect_esptool_path env eff).2.spawns = eff.spawns ++ [["which", "esptool.py"]]) ∧
    (∀ n, (detect_esptool_path env eff).1 ≠ .childFailed n) ∧
    (∀ c, (detect_esptool_path env eff).1 ≠ .exited c) := by
  unfold detect_esptool_path
  by_cases h : env.pathExists (env.home ++ "/.platformio/packages/tool-esptoolpy")
  · simp [h]
  · simp only [h, Bool.false_eq_true, if_false]
    have hw := which_spec env "esptool.py" eff
    rcases hww : which env "esptool.py" eff with ⟨r, eff'⟩
    rw [hww] at hw
    cases r with
    | ok out => simpa using ⟨hw.1, Or.inr hw.2.1⟩
    | exited c => exact absurd rfl (hw.2.2.2 c)
    | notFound e => simpa using ⟨hw.1, Or.inr hw.2.1⟩
    | childFailed n => exact absurd rfl (hw.2.2.1 n)

/-! ### Dry-run behaviour of each stage (for C4) and child-failure
     characterization (for C6) -/

/-- With `--dryrun`, `flash_stm32` spawns nothing, prints exactly what the
non-dry-run invocation prints, raises `NotFoundException` in exactly the
same cases, and never raises `CalledProcessError`. -/
theorem flash_stm32_dry (env : Env) (m f : String) (t p s : Option String) (eff : Effects) :
    (flash_stm32 env ⟨m, f, t, p, s, true⟩ eff).2.spawns = eff.spawns ∧
    (flash_stm32 env ⟨m, f, t, p, s, true⟩ eff).2.prints =
      (flash_stm32 env ⟨m, f, t, p, s, false⟩ eff).2.prints ∧
    (∀ e, (flash_stm32 env ⟨m, f, t, p, s, true⟩ eff).1 = .notFound e ↔
          (flash_stm32 env ⟨m, f, t, p, s, false⟩ eff).1 = .notFound e) ∧
    (∀ n, (flash_stm32 env ⟨m, f, t, p, s, true⟩ eff).1 ≠ .childFailed n) := by
  unfold flash_stm32
  cases hdet : detect_openocd_path env with
  | error e => simp
  | ok pr =>
    obtain ⟨bin, root⟩ := pr
    dsimp only
    by_cases hser : detect_mcu_series (pyLower m) = ""
    · simp [hser]
    · simp only [hser, if_false]
      by_cases hbin : pyEndswith f ".bin"
      · simp [hbin]
      · simp only [hbin, Bool.false_eq_true, if_false]
        by_cases helfhex : (pyEndswith f ".elf" || pyEndswith f ".hex") = true
        · simp [helfhex]
        · simp [helfhex]

/-- With `--dryrun`, `flash_esp32` spawns at most the `which esptool.py`
probe, prints exactly what the non-dry-run invocation prints, raises
`NotFoundException` in exactly the same cases, and never raises
`CalledProcessError`. -/
theorem flash_esp32_dry (env : Env) (m f : String) (t p s : Option String) (eff : Effects) :
    ((flash_esp32 env ⟨m, f, t, p, s, true⟩ eff).2.spawns = eff.spawns ∨
     (flash_esp32 env ⟨m, f, t, p, s, true⟩ eff).2.spawns =
       eff.spawns ++ [["which", "esptool.py"]]) ∧
    (flash_esp32 env ⟨m, f, t, p, s, true⟩ eff).2.prints =
      (flash_esp32 env ⟨m, f, t, p, s, false⟩ eff).2.prints ∧
    (∀ e, (flash_esp32 env ⟨m, f, t, p, s, true⟩ eff).1 = .notFound e ↔
          (flash_esp32 env ⟨m, f, t, p, s, false⟩ eff).1 = .notFound e) ∧
    (∀ n, (flash_esp32 env ⟨m, f, t, p, s, true⟩ eff).1 ≠ .childFailed n) := by
  unfold flash_esp32
  cases p with
  | none => simp
  | some port =>
    dsimp only
    by_cases hpe : env.pathExists port
    · simp only [hpe, Bool.not_true, Bool.false_eq_true, if_false]
      have hd := detect_esptool_path_spec env eff
      rcases hdd : detect_esptool_path env eff with ⟨r, eff'⟩
      rw [hdd] at hd
      cases r with
      | ok cmd =>
        simp only []
        refine ⟨?_, ?_, ?_, ?_⟩
        · simpa using hd.2.1
        · simp
        · intro e; simp
        · intro n; simp
      | exited c => exact absurd rfl (hd.2.2.2 c)
      | notFound e =>
        refine ⟨?_, ?_, ?_, ?_⟩
        · simpa using hd.2.1
        · simp
        · intro e'; simp
        · intro n; simp
      | childFailed n => exact absurd rfl (hd.2.2.1 n)
    · simp [hpe]

/-- With `--dryrun`, `flash_mcu` spawns at most the `which` probe, prints
what the non-dry-run invocation prints, raises `NotFoundException` in the
same cases, and never raises `CalledProcessError`. -/
theorem flash_mcu_dry (env : Env) (m f : String) (t p s : Option String) (eff : Effects) :
    ((flash_mcu env ⟨m, f, t, p, s, true⟩ eff).2.spawns = eff.spawns ∨
     (flash_mcu env ⟨m, f, t, p, s, true⟩ eff).2.spawns =
       eff.spawns ++ [["which", "esptool.py"]]) ∧
    (flash_mcu env ⟨m, f, t, p, s, true⟩ eff).2.prints =
      (flash_mcu env ⟨m, f, t, p, s, false⟩ eff).2.prints ∧
    (∀ e, (flash_mcu env ⟨m, f, t, p, s, true⟩ eff).1 = .notFound e ↔
          (flash_mcu env ⟨m, f, t, p, s, false⟩ eff).1 = .notFound e) ∧
    (∀ n, (flash_mcu env ⟨m, f, t, p, s, true⟩ eff).1 ≠ .childFailed n) := by
  unfold flash_mcu
  dsimp only
  by_cases h1 : pyStartswith (pyLower m) "stm32"
  · simp only [h1, if_true]
    have h := flash_stm32_dry env m f t p s eff
    exact ⟨Or.inl h.1, h.2.1, h.2.2.1, h.2.2.2⟩
  · simp only [h1, Bool.false_eq_true, if_false]
    by_cases h2 : pyStartswith (pyLower m) "esp32"
    · simp only [h2, if_true]
      exact flash_esp32_dry env m f t p s eff
    · simp [h2]

/-- With `--dryrun`, a whole `main` run spawns at most the `which` probe,
prints exactly what the non-dry-run run prints, and never ends in
`CalledProcessError`. -/
theorem main_dry (env : Env) (m f : String) (t p s : Option String) (eff : Effects) :
    ((main env ⟨m, f, t, p, s, true⟩ eff).2.spawns = eff.spawns ∨
     (main env ⟨m, f, t, p, s, true⟩ eff).2.spawns =
       eff.spawns ++ [["which", "esptool.py"]]) ∧
    (main env ⟨m, f, t, p, s, true⟩ eff).2.prints =
      (main env ⟨m, f, t, p, s, false⟩ eff).2.prints ∧
    (∀ n, (main env ⟨m, f, t, p, s, true⟩ eff).1 ≠ .childFailed n) := by
  unfold main
  dsimp only
  by_cases hfw : env.pathExists f
  · simp only [hfw, Bool.not_true, Bool.false_eq_true, if_false]
    have hd := flash_mcu_dry env m f t p s eff
    rcases hT : flash_mcu env ⟨m, f, t, p, s, true⟩ eff with ⟨rT, effT⟩
    rcases hF : flash_mcu env ⟨m, f, t, p, s, false⟩ eff with ⟨rF, effF⟩
    rw [hT, hF] at hd
    obtain ⟨hsp, hpr, hnf, hcf⟩ := hd
    dsimp only at hsp hpr hnf hcf
    cases rT with
    | notFound e =>
      have hFe : rF = .notFound e := (hnf e).mp rfl
      subst hFe
      simp [hsp, hpr]
    | ok u =>
      cases rF with
      | notFound e => exact absurd ((hnf e).mpr rfl) (by simp)
      | ok v => exact ⟨hsp, hpr, by simp⟩
      | exited c => exact ⟨hsp, hpr, by simp⟩
      | childFailed n0 => exact ⟨hsp, hpr, by simp⟩
    | exited c =>
      cases rF with
      | notFound e => exact absurd ((hnf e).mpr rfl) (by simp)
      | ok v => exact ⟨hsp, hpr, by simp⟩
      | exited c' => exact ⟨hsp, hpr, by simp⟩
      | childFailed n0 => exact ⟨hsp, hpr, by simp⟩
    | childFailed n0 => exact absurd rfl (hcf n0)
  · simp [hfw]

/-- C4 (amended): with `--dryrun`, the only child process the program can
spawn is the `which esptool.py` lookup probe (on the ESP32 fallback path) —
the built flashing command is never spawned — and every line printed,
including the resolved command line, is identical to what the same
invocation prints without `--dryrun`. -/
theorem C4_dryrun (env : Env) (m f : String) (t p s : Option String) :
    ((runMain env ⟨m, f, t, p, s, true⟩).2.spawns.all
        (fun c => c == ["which", "esptool.py"]) = true) ∧
    (runMain env ⟨m, f, t, p, s, true⟩).2.prints =
      (runMain env ⟨m, f, t, p, s, false⟩).2.prints := by
  have h := main_dry env m f t p s Effects.empty
  constructor
  · simp only [runMain, runMainRes]
    rcases h.1 with h1 | h1 <;> rw [h1] <;> simp [Effects.empty]
  · simpa [runMain, runMainRes] using h.2.1

/-- The environment for C4's counterexample: ESP32 invocation in dry-run
mode with no PlatformIO esptool package, so the locator shells out to
`which` — a child process — even under `--dryrun`. -/
def envC4 : Env :=
  ⟨"/h", fun p => p == "a.bin" || p == "/dev/ttyACM0",
   fun e => if e = "esptool.py" then some "/usr/bin/esptool.py" else none,
   fun _ => 0⟩

def argsC4 : Args := ⟨"esp32", "a.bin", none, some "/dev/ttyACM0", none, true⟩

/-- Counterexample to C4 as stated: this dry-run invocation spawns the child
process `which esptool.py`, so it is not the case that no child process of
any kind is spawned. -/
theorem C4_counterexample :
    argsC4.dryrun = true ∧
    (runMain envC4 argsC4).2.spawns = [["which", "esptool.py"]] ∧
    ([["which", "esptool.py"]] : List (List String)) ≠ [] :=
  ⟨rfl, rfl, by decide⟩

/-! ### C6: propagation of a failing child process -/

theorem flash_stm32_childFailed (env : Env) (args : Args) (eff : Effects) (n : Nat) :
    (flash_stm32 env args eff).1 = .childFailed n → n ≠ 0 := by
  unfold flash_stm32
  cases hdet : detect_openocd_path env with
  | error e => simp
  | ok pr =>
    obtain ⟨bin, root⟩ := pr
    dsimp only
    by_cases hser : detect_mcu_series (pyLower args.mcu) = ""
    · simp [hser]
    · simp only [hser, if_false]
      by_cases hbin : pyEndswith args.firmware_path ".bin"
      · simp only [hbin, if_true]
        cases hd : args.dryrun with
        | true => simp
        | false =>
          simp only [Bool.false_eq_true, if_false]
          exact runChecked_childFailed_ne_zero env _ _ n
      · simp only [hbin, Bool.false_eq_true, if_false]
        by_cases helfhex : (pyEndswith args.firmware_path ".elf" ||
                            pyEndswith args.firmware_path ".hex") = true
        · simp only [helfhex, if_true]
          cases hd : args.dryrun with
          | true => simp
          | false =>
            simp only [Bool.false_eq_true, if_false]
            exact runChecked_childFailed_ne_zero env _ _ n
        · simp [helfhex]

theorem flash_esp32_childFailed (env : Env) (args : Args) (eff : Effects) (n : Nat) :
    (flash_esp32 env args eff).1 = .childFailed n → n ≠ 0 := by
  unfold flash_esp32
  cases hp : args.port with
  | none => simp
  | some port =>
    dsimp only
    by_cases hpe : env.pathExists port
    · simp only [hpe, Bool.not_true, Bool.false_eq_true, if_false]
      have hd := detect_esptool_path_spec env eff
      rcases hdd : detect_esptool_path env eff with ⟨r, eff'⟩
      rw [hdd] at hd
      cases r with
      | ok cmd =>
        cases hdr : args.dryrun with
        | true => simp
        | false =>
          simp only [Bool.false_eq_true, if_false]
          exact runChecked_childFailed_ne_zero env _ _ n
      | exited c => simp
      | notFound e => simp
      | childFailed c =>
        intro h
        exact absurd rfl (hd.2.2.1 c)
    · simp [hpe]

theorem flash_mcu_childFailed (env : Env) (args : Args) (eff : Effects) (n : Nat) :
    (flash_mcu env args eff).1 = .childFailed n → n ≠ 0 := by
  unfold flash_mcu
  dsimp only
  by_cases h1 : pyStartswith (pyLower args.mcu) "stm32"
  · simp only [h1, if_true]
    exact flash_stm32_childFailed env args eff n
  · simp only [h1, Bool.false_eq_true, if_false]
    by_cases h2 : pyStartswith (pyLower args.mcu) "esp32"
    · simp only [h2, if_true]
      exact flash_esp32_childFailed env args eff n
    · simp [h2]

theorem main_childFailed (env : Env) (args : Args) (eff : Effects) (n : Nat) :
    (main env args eff).1 = .childFailed n → n ≠ 0 := by
  unfold main
  by_cases hfw : env.pathExists args.firmware_path
  · simp only [hfw, Bool.not_true, Bool.false_eq_true, if_false]
    have hm := flash_mcu_childFailed env args eff n
    rcases hmm : flash_mcu env args eff with ⟨r, eff'⟩
    rw [hmm] at hm
    cases r with
    | ok u => simp
    | exited c => simp
    | notFound e => simp
    | childFailed c => simpa using hm
  · simp [hfw]

/-- C6 (amended): whenever a run ends with the checked subprocess raising
`CalledProcessError` with child status `n` — that is, a spawned external
flashing tool exited nonzero — the invocation was not a dry run, the child
status is indeed nonzero, and the wrapper terminates with exit status 1
(the CPython uncaught-exception status), not with the child's status. -/
theorem C6_child_failure (env : Env) (args : Args) (n : Nat)
    (h : (runMainRes env args).1 = .childFailed n) :
    args.dryrun = false ∧ n ≠ 0 ∧ (runMain env args).1 = 1 := by
  refine ⟨?_, main_childFailed env args Effects.empty n h, ?_⟩
  · cases hd : args.dryrun with
    | false => rfl
    | true =>
      exfalso
      obtain ⟨m, f, t, p, s, d⟩ := args
      dsimp only at hd
      subst hd
      exact (main_dry env m f t p s Effects.empty).2.2 n h
  · simp only [runMain, h, exitStatus]

/-- The environment for C6's counterexample: openocd at the system location,
firmware present, and every spawned child exiting with status 2. -/
def envC6 : Env :=
  ⟨"/h",
   fun q => q == "/usr/local/bin/openocd" || q == "/usr/local/share/openocd" || q == "a.bin",
   fun _ => none, fun _ => 2⟩

def argsC6 : Args := ⟨"stm32f103", "a.bin", none, none, none, false⟩

/-- Counterexample to C6 as stated: the spawned flashing tool exits with
status 2, but the wrapper terminates with exit status 1, not 2 (the
`CalledProcessError` is not caught by `main`, and CPython exits 1 on an
uncaught exception). -/
theorem C6_counterexample :
    (runMain envC6 argsC6).2.spawns =
      [["/usr/local/bin/openocd",
        "-f", "/usr/local/share/openocd/scripts/interface/cmsis-dap.cfg",
        "-f", "/usr/local/share/openocd/scripts/target/stm32f1x.cfg",
        "-c", "program a.bin exit 0x8000000"]] ∧
    envC6.runExit
      ["/usr/local/bin/openocd",
       "-f", "/usr/local/share/openocd/scripts/interface/cmsis-dap.cfg",
       "-f", "/usr/local/share/openocd/scripts/target/stm32f1x.cfg",
       "-c", "program a.bin exit 0x8000000"] = 2 ∧
    (runMain envC6 argsC6).1 = 1 ∧
    (1 : Nat) ≠ 2 :=
  ⟨rfl, rfl, rfl, by decide⟩

/-- Witness for C6's amended theorem at the concrete failing-child input. -/
theorem C6_child_failure_witness :
    (runMainRes envC6 argsC6).1 = .childFailed 2 ∧
    (argsC6.dryrun = false ∧ (2 : Nat) ≠ 0 ∧ (runMain envC6 argsC6).1 = 1) :=
  ⟨rfl, C6_child_failure envC6 argsC6 2 rfl⟩

end FlashMcu
